import Mathlib

/-!
Shallow embedding of `src/appchallenge/routes/api.js` (an Express router over
two Mongo collections, Category and Picture, and a filesystem blob store under
`public/uploads/`).

Modelling conventions:
* the record store is a pair of lists (`DB.categories`, `DB.pictures`); MongoDB
  guarantees `oid` uniqueness per collection, so `findById` / `findByIdAndX`
  are modelled with `List.find?` on `oid`;
* the blob store is the list of finalized file urls (the `/uploads/<name>.<ext>`
  strings produced by the rename step); the multer staging area is outside the
  model — only the `fs.rename` finalization mutates `DB.blobs`;
* JavaScript string primitives (`split`, `trim`, `toLowerCase`) are re-coded
  structurally over `List Char` so that every definition evaluates inside the
  kernel;
* each handler is a pure function `inputs → HttpOutcome × DB`; an uncaught
  synchronous throw inside a handler (caught by the Express layer and turned
  into a 500) is `HttpOutcome.frameworkError`, and a throw inside a promise
  callback with no downstream rejection handler (so no response is ever sent)
  is `HttpOutcome.noResponse`;
* the non-awaited `save()` calls take an explicit `saveOk : Bool` describing
  whether the insert eventually succeeds; the handler computes its response
  without inspecting it, exactly as the code answers before the insert settles.
-/

/-- JavaScript `s.split(sep)` for a one-character separator: splits at every
occurrence, keeping empty pieces (`"".split(',') = [""]`, `"a,".split(',') =
["a", ""]`). Structural over `List Char` so it reduces in the kernel. -/
def splitOnChar (sep : Char) (s : String) : List String :=
  (s.data.foldr
    (fun c acc =>
      match acc with
      | [] => [[c]]
      | g :: gs => if c = sep then [] :: (g :: gs) else (c :: g) :: gs)
    [[]]).map String.mk

/-- JavaScript `String.prototype.trim`: drop whitespace from both ends. -/
def jsTrim (s : String) : String :=
  String.mk (((s.data.dropWhile Char.isWhitespace).reverse.dropWhile Char.isWhitespace).reverse)

/-- JavaScript `String.prototype.toLowerCase` (ASCII range, which is all the
repository ever feeds it). -/
def jsToLower (s : String) : String :=
  String.mk (s.data.map Char.toLower)

/-- `parseMatches` (api.js lines 53-56): split the comma-separated tag list and
trim + lowercase each entry. Empty entries are kept, exactly as in the source. -/
def parseMatches (matchesString : String) : List String :=
  (splitOnChar ',' matchesString).map (fun x => jsToLower (jsTrim x))

/-- `getExtension` (api.js lines 44-51): split the declared name on every dot;
a single part means no extension and the function throws
`Unknown file type!`; otherwise the last part is returned. -/
def getExtension (p : String) : Except String String :=
  let parts := splitOnChar '.' p
  if parts.length == 1 then
    .error "Unknown file type!"
  else
    .ok (parts.getLastD "")

/-- A decoded multipart upload: the random staged filename multer assigned and
the client-declared original name. -/
structure Upload where
  filename : String
  originalname : String
  deriving Repr, DecidableEq, Inhabited

/-- A Category record (models/Category.js as used by api.js). -/
structure Category where
  oid : Nat
  title : String
  imageUrl : String
  dateAdded : Nat
  deriving Repr, DecidableEq, Inhabited

/-- A Picture record (models/Picture.js as used by api.js). -/
structure Picture where
  oid : Nat
  categoryId : Nat
  matchList : List String
  imageUrl : String
  dateAdded : Nat
  deriving Repr, DecidableEq, Inhabited

/-- Joint state of the record store and the finalized blob store. -/
structure DB where
  categories : List Category
  pictures : List Picture
  blobs : List String
  deriving Repr, DecidableEq, Inhabited

/-- What the handler does towards the HTTP caller. `frameworkError` is an
uncaught synchronous throw (Express answers 500); `noResponse` is a rejection
nobody handles: the request never receives a response. -/
inductive HttpOutcome where
  | status (code : Nat) (msg : String)
  | sentCategory (c : Category)
  | sentPicture (p : Picture)
  | sentNull
  | sentPictures (l : List Picture)
  | sentMessage (msg : String)
  | frameworkError (msg : String)
  | noResponse (msg : String)
  deriving Repr, DecidableEq

/-- Whether the caller receives any response at all for this outcome. -/
def HttpOutcome.isReportedToCaller : HttpOutcome → Bool
  | .noResponse _ => false
  | _ => true

/-- The TypeError raised by `matchesString.split(',')` when the `matches`
field is absent (`matchesString` is `undefined`). -/
def typeErrorUndefinedSplit : String :=
  "TypeError: cannot read property split of undefined"

/-- Url under which a finalized upload is served: `/uploads/<staged>.<ext>`,
extension lowercased (api.js line 96 / 132 / 172). -/
def targetUrl (image : Upload) (ext : String) : String :=
  "/uploads/" ++ image.filename ++ "." ++ jsToLower ext

/-- POST `/categories` (api.js lines 92-115). `getExtension` throws inside the
handler itself, so a missing extension surfaces through the Express error
handler. The staged file always exists (multer just wrote it), so the rename
succeeds and finalizes the blob. `category.save()` is issued but not awaited:
the response is computed before the insert settles, so it cannot depend on
`saveOk`. -/
def createCategory (db : DB) (title : String) (image : Upload)
    (now newId : Nat) (saveOk : Bool) : HttpOutcome × DB :=
  match getExtension image.originalname with
  | .error e => (.frameworkError e, db)
  | .ok ext =>
    let imageUrl := targetUrl image ext
    let category : Category :=
      { oid := newId, title := title, imageUrl := imageUrl, dateAdded := now }
    (.sentCategory category,
      { db with
          blobs := imageUrl :: db.blobs,
          categories := if saveOk then db.categories ++ [category] else db.categories })

/-- POST `/pictures` (api.js lines 117-151). Faithful control flow:
`parseMatches(matches)` runs before the `!image || !matches` guard, so an
absent `matches` field throws a TypeError first; `sendStatus(400)` answers the
guard violations; a missing category answers 400 `Internal error!` before any
blob mutation; `getExtension` throws inside the `findById` success callback,
whose rejection nobody handles, so no response is sent on a bad extension.
`picture.save()` is not awaited. -/
def createPicture (db : DB) (categoryId : Nat) (matchesField : Option String)
    (image : Option Upload) (now newId : Nat) (saveOk : Bool) : HttpOutcome × DB :=
  match matchesField with
  | none => (.frameworkError typeErrorUndefinedSplit, db)
  | some m =>
    let matchArray := parseMatches m
    match image with
    | none => (.status 400 "Bad Request", db)
    | some img =>
      if m == "" then (.status 400 "Bad Request", db)
      else
        match db.categories.find? (fun c => c.oid == categoryId) with
        | none => (.status 400 "Internal error!", db)
        | some _ =>
          match getExtension img.originalname with
          | .error e => (.noResponse e, db)
          | .ok ext =>
            let imageUrl := targetUrl img ext
            let picture : Picture :=
              { oid := newId, categoryId := categoryId, matchList := matchArray,
                imageUrl := imageUrl, dateAdded := now }
            (.sentPicture picture,
              { db with
                  blobs := imageUrl :: db.blobs,
                  pictures := if saveOk then db.pictures ++ [picture] else db.pictures })

/-- POST `/pictures/:id` (api.js lines 153-186). `parseMatches(matches)` runs
before the `!matches` guard (TypeError on an absent field); an empty `matches`
answers 400. Without a new image, `findByIdAndUpdate` point-updates `matches`
(the unique record with this `oid`; a missing id resolves `null` which is sent
back). With a new image, the rename finalizes the new blob and the update also
rewrites `imageUrl`; the old blob is left in place. -/
def updatePicture (db : DB) (id : Nat) (matchesField : Option String)
    (image : Option Upload) : HttpOutcome × DB :=
  match matchesField with
  | none => (.frameworkError typeErrorUndefinedSplit, db)
  | some m =>
    let matchArray := parseMatches m
    if m == "" then (.status 400 "Missing field matches!", db)
    else
      match image with
      | none =>
        match db.pictures.find? (fun p => p.oid == id) with
        | none => (.sentNull, db)
        | some p =>
          (.sentPicture { p with matchList := matchArray },
            { db with
                pictures := db.pictures.map
                  (fun q => if q.oid == id then { q with matchList := matchArray } else q) })
      | some img =>
        match getExtension img.originalname with
        | .error e => (.frameworkError e, db)
        | .ok ext =>
          let imageUrl := targetUrl img ext
          (.sentMessage "Successfully updated!",
            { db with
                blobs := imageUrl :: db.blobs,
                pictures := db.pictures.map
                  (fun q =>
                    if q.oid == id then
                      { q with matchList := matchArray, imageUrl := imageUrl }
                    else q) })

/-- DELETE `/categories/:id` (api.js lines 188-214). `Picture.find` returns
every record whose `categoryId` equals `id`; each has `remove()` called on it
and its blob unlinked. `Category.findById` returns the unique record with this
`oid` (if any); it is removed and its blob unlinked. `fs.unlink` on a missing
file rejects, which only changes the response (500 instead of `Success!`), not
the removals already issued. -/
def deleteCategory (db : DB) (id : Nat) : HttpOutcome × DB :=
  let victims := db.pictures.filter (fun p => p.categoryId == id)
  let foundCategory := db.categories.find? (fun c => c.oid == id)
  let goneUrls :=
    victims.map (fun p => p.imageUrl) ++
      (match foundCategory with
       | some c => [c.imageUrl]
       | none => [])
  let db' : DB :=
    { db with
        pictures := db.pictures.filter (fun p => !(p.categoryId == id)),
        categories :=
          match foundCategory with
          | some _ => db.categories.filter (fun c => !(c.oid == id))
          | none => db.categories,
        blobs := db.blobs.filter (fun b => !(decide (b ∈ goneUrls))) }
  (if goneUrls.all (fun u => decide (u ∈ db.blobs)) then
      .sentMessage "Success!"
    else
      .status 500 "unlink failed", db')

/-- DELETE `/pictures/:id` (api.js lines 216-225). `findByIdAndRemove` deletes
the unique record with this `oid` (a no-op resolving `null` when absent); the
response is 200 `success` either way and no `fs.unlink` is issued. -/
def deletePicture (db : DB) (id : Nat) : HttpOutcome × DB :=
  (.sentMessage "success",
    { db with
        pictures :=
          match db.pictures.find? (fun p => p.oid == id) with
          | some _ => db.pictures.filter (fun p => !(p.oid == id))
          | none => db.pictures })

/-- The `latestItemsLimit` constant of api.js line 65: size of the recency
window the fresh draw is taken from. -/
def latestItemsLimit : Nat := 50

/-- Sort pictures by `dateAdded` descending — the `$sort: { dateAdded: -1 }`
pipeline stage. Insertion sort, structural so every call reduces in the
kernel; MongoDB leaves the order of ties unspecified, so any correct sort is a
faithful model. -/
def insertByDate (p : Picture) : List Picture → List Picture
  | [] => [p]
  | q :: qs => if q.dateAdded ≤ p.dateAdded then p :: q :: qs else q :: insertByDate p qs

/-- See `insertByDate`. -/
def sortByDateDesc : List Picture → List Picture
  | [] => []
  | p :: ps => insertByDate p (sortByDateDesc ps)

/-- The `$sample: { size: n }` pipeline stage. MongoDB rejects a negative size
with an error (this is how the route can answer 500); with `size` at least the
number of input documents it returns every document; otherwise it returns
exactly `size` documents drawn randomly — and, as the MongoDB documentation
warns, it may output the same document more than once. The random choices are
an explicit `oracle`: entry `k` (defaulting to `k` itself, reduced modulo the
input length) is the index of the `k`-th drawn document, so a repeating oracle
models a repeated document. -/
def mongoSample (oracle : List Nat) (size : Int) (docs : List Picture) :
    Except String (List Picture) :=
  if size < 0 then
    .error "size argument to sample must not be negative"
  else if docs.length ≤ size.toNat then
    .ok docs
  else
    .ok ((List.range size.toNat).map
      (fun k => docs.getD (oracle.getD k k % docs.length) default))

/-- `Array.from(new Set(latest))` of api.js line 74. A JavaScript `Set` of
objects compares SameValueZero, i.e. object references; the driver allocates a
fresh object for every document of an aggregate result — also when the same
stored document is emitted twice — so the references are pairwise distinct and
the construction returns the array unchanged: it never merges two entries that
denote the same stored document. -/
def jsSetFromArray (latest : List Picture) : List Picture := latest

/-- The random draws one GET `/categories/:categoryId/:limit` request makes:
the `getRandomInt(1, limit / 2)` result and the two `$sample` oracles. -/
structure SampleRandom where
  latestBucketSize : Nat
  freshOracle : List Nat
  restOracle : List Nat
  deriving Repr

/-- Modelled from the spec: `getRandomInt` lives in
`src/appchallenge/utils/randomUtils.js`, which is not among the sources. The
spec describes the draw at api.js line 67 as "a uniform random integer in
[1, floor(count/2)] (minimum 1, so at least one fresh item is always attempted
even for small count)", so an admissible value is any integer between 1 and
`max 1 (floor (limit / 2))`. -/
def validBucketSize (limit : Int) (b : Nat) : Prop :=
  1 ≤ b ∧ b ≤ max 1 (limit.toNat / 2)

instance (limit : Int) (b : Nat) : Decidable (validBucketSize limit b) := by
  unfold validBucketSize
  infer_instance

/-- The records the `$match: { categoryId }` stage keeps. -/
def matchingPictures (db : DB) (categoryId : Nat) : List Picture :=
  db.pictures.filter (fun p => p.categoryId == categoryId)

/-- GET `/categories/:categoryId/:limit` (api.js lines 61-90), the Sampler.
First pipeline: match, sort by recency, truncate to the 50-record window,
sample `latestBucketSize` documents. The result is passed through the
reference-compared `Set` (`jsSetFromArray`), its ids are collected, and the
second pipeline samples `limit - latestSet.length` documents from the records
past the window, dropping any sampled document whose id is already fresh
(the `$nin` match sits after the `$sample` stage). Either pipeline rejecting
makes the route answer 500 with that error. -/
def sampleBatch (db : DB) (categoryId : Nat) (limit : Int) (r : SampleRandom) :
    Except String (List Picture) :=
  let sorted := sortByDateDesc (matchingPictures db categoryId)
  match mongoSample r.freshOracle (r.latestBucketSize : Int) (sorted.take latestItemsLimit) with
  | .error e => .error e
  | .ok latest =>
    let latestSet := jsSetFromArray latest
    let latestIds := latestSet.map (fun p => p.oid)
    let restItemsCount : Int := limit - latestSet.length
    match mongoSample r.restOracle restItemsCount (sorted.drop latestItemsLimit) with
    | .error e => .error e
    | .ok sampled =>
      .ok (latestSet ++ sampled.filter (fun p => !(latestIds.contains p.oid)))

/-- The route wrapper: 200 with the pictures, or 500 with the aggregation
error. -/
def getCategorySample (db : DB) (categoryId : Nat) (limit : Int)
    (r : SampleRandom) : HttpOutcome :=
  match sampleBatch db categoryId limit r with
  | .ok pictures => .sentPictures pictures
  | .error e => .status 500 e

theorem mem_insertByDate {x p : Picture} {l : List Picture} :
    x ∈ insertByDate p l ↔ x = p ∨ x ∈ l := by
  induction l with
  | nil => simp [insertByDate]
  | cons q qs ih =>
    by_cases h : q.dateAdded ≤ p.dateAdded <;> simp [insertByDate, h, ih] <;> tauto

theorem length_insertByDate (p : Picture) (l : List Picture) :
    (insertByDate p l).length = l.length + 1 := by
  induction l with
  | nil => rfl
  | cons q qs ih =>
    by_cases h : q.dateAdded ≤ p.dateAdded <;> simp [insertByDate, h, ih]

theorem mem_sortByDateDesc {x : Picture} {l : List Picture} :
    x ∈ sortByDateDesc l ↔ x ∈ l := by
  induction l with
  | nil => simp [sortByDateDesc]
  | cons p ps ih => simp [sortByDateDesc, mem_insertByDate, ih]

theorem length_sortByDateDesc (l : List Picture) :
    (sortByDateDesc l).length = l.length := by
  induction l with
  | nil => rfl
  | cons p ps ih => simp [sortByDateDesc, length_insertByDate, ih]

theorem mongoSample_neg {s : Int} (o : List Nat) (d : List Picture) (hs : s < 0) :
    mongoSample o s d = .error "size argument to sample must not be negative" := by
  simp [mongoSample, hs]

theorem mongoSample_ok {s : Int} (o : List Nat) (d : List Picture) (hs : 0 ≤ s) :
    ∃ l, mongoSample o s d = .ok l := by
  unfold mongoSample
  rw [if_neg (by omega)]
  by_cases h : d.length ≤ s.toNat
  · exact ⟨d, by rw [if_pos h]⟩
  · exact ⟨_, by rw [if_neg h]⟩

theorem mongoSample_length {o : List Nat} {s : Int} {d l : List Picture}
    (h : mongoSample o s d = .ok l) : l.length = min d.length s.toNat := by
  unfold mongoSample at h
  split at h
  · exact absurd h (by simp)
  · split at h
    all_goals simp only [Except.ok.injEq] at h; subst h
    · omega
    · simp only [List.length_map, List.length_range]
      omega

theorem mongoSample_mem {o : List Nat} {s : Int} {d l : List Picture}
    (h : mongoSample o s d = .ok l) : ∀ x ∈ l, x ∈ d := by
  unfold mongoSample at h
  split at h
  · exact absurd h (by simp)
  · split at h
    all_goals simp only [Except.ok.injEq] at h; subst h
    · exact fun x hx => hx
    · intro x hx
      simp only [List.mem_map, List.mem_range] at hx
      obtain ⟨k, hk, rfl⟩ := hx
      have hd : 0 < d.length := by omega
      have hlt : (o.getD k k % d.length) < d.length := Nat.mod_lt _ hd
      rw [List.getD_eq_getElem _ _ hlt]
      exact List.getElem_mem hlt

/-- C9: for every picture id, DELETE `/pictures/:id` removes only the Picture
record (the one whose id matches; every other record survives); the blob the
record referenced — and every other blob and category — is left unchanged, and
the route answers success. -/
theorem deletePicture_removes_record_only (db : DB) (id : Nat) :
    (deletePicture db id).2.blobs = db.blobs ∧
    (deletePicture db id).2.categories = db.categories ∧
    (deletePicture db id).2.pictures = db.pictures.filter (fun p => !(p.oid == id)) ∧
    (deletePicture db id).1 = .sentMessage "success" := by
  refine ⟨rfl, rfl, ?_, rfl⟩
  unfold deletePicture
  cases hfind : db.pictures.find? (fun p => p.oid == id) with
  | some p => simp [hfind]
  | none =>
    simp only [hfind]
    refine (List.filter_eq_self.mpr ?_).symm
    intro p hp
    have := List.find?_eq_none.mp hfind p hp
    simpa using this

/-- C1: DELETE `/categories/:id` removes every Picture record whose
`categoryId` equals `id` and deletes each of their blobs, and removes the
Category record found under `id` together with its blob; afterwards no Picture
record referencing `id` remains, and no Category record with this id either. -/
theorem deleteCategory_cascade (db : DB) (id : Nat) :
    (∀ p ∈ (deleteCategory db id).2.pictures, p.categoryId ≠ id) ∧
    (∀ c ∈ (deleteCategory db id).2.categories, c.oid ≠ id) ∧
    (∀ p ∈ db.pictures, p.categoryId = id →
        p.imageUrl ∉ (deleteCategory db id).2.blobs) ∧
    (∀ c, db.categories.find? (fun c => c.oid == id) = some c →
        c.imageUrl ∉ (deleteCategory db id).2.blobs) := by
  refine ⟨?_, ?_, ?_, ?_⟩
  · intro p hp
    have hp' : p ∈ db.pictures.filter (fun q => !(q.categoryId == id)) := hp
    simp only [List.mem_filter, Bool.not_eq_true', beq_eq_false_iff_ne] at hp'
    exact hp'.2
  · intro c hc
    cases hfind : db.categories.find? (fun d => d.oid == id) with
    | some c0 =>
      simp only [deleteCategory, hfind, List.mem_filter, Bool.not_eq_true',
        beq_eq_false_iff_ne] at hc
      exact hc.2
    | none =>
      simp only [deleteCategory, hfind] at hc
      have := List.find?_eq_none.mp hfind c hc
      simpa using this
  · intro p hp hpid hmem
    simp only [deleteCategory, List.mem_filter, Bool.not_eq_true',
      decide_eq_false_iff_not, List.mem_append, List.mem_map] at hmem
    exact hmem.2 (Or.inl ⟨p, ⟨hp, by simpa using hpid⟩, rfl⟩)
  · intro c hfind hmem
    simp only [deleteCategory, hfind, List.mem_filter, Bool.not_eq_true',
      decide_eq_false_iff_not, List.mem_append, List.mem_map] at hmem
    exact hmem.2 (Or.inr (by simp))

/-- C3: createPicture with a categoryId that resolves to no Category answers a
400 validation failure (the InvalidReference case) and leaves the entire state
— in particular the set of finalized blobs — unchanged: the staged upload is
never renamed. -/
theorem createPicture_invalidReference (db : DB) (categoryId : Nat) (m : String)
    (img : Upload) (now newId : Nat) (saveOk : Bool) (hm : m ≠ "")
    (hc : db.categories.find? (fun c => c.oid == categoryId) = none) :
    createPicture db categoryId (some m) (some img) now newId saveOk =
      (.status 400 "Internal error!", db) := by
  simp [createPicture, hc, hm]

/-- A store holding one category with id 2 and its blob. -/
def dbWithCategory2 : DB :=
  { categories := [{ oid := 2, title := "animals", imageUrl := "/uploads/z.png", dateAdded := 0 }],
    pictures := [],
    blobs := ["/uploads/z.png"] }

/-- C3 witness: a concrete createPicture against the missing category 1. -/
theorem createPicture_invalidReference_witness :
    createPicture dbWithCategory2 1 (some "cat")
        (some { filename := "stage1", originalname := "a.png" }) 5 9 true =
      (.status 400 "Internal error!", dbWithCategory2) :=
  createPicture_invalidReference dbWithCategory2 1 "cat"
    { filename := "stage1", originalname := "a.png" } 5 9 true (by decide) rfl

/-- C5: an absent `matches` field makes both POST `/pictures` and POST
`/pictures/:id` throw a TypeError from `parseMatches(undefined)` before their
MissingField guard can run: the caller gets the framework 500 crash page, not
the intended 400 validation failure, and the state is untouched. -/
theorem absentMatches_typeError (db : DB) (categoryId id : Nat)
    (image : Option Upload) (now newId : Nat) (saveOk : Bool) :
    createPicture db categoryId none image now newId saveOk =
      (.frameworkError typeErrorUndefinedSplit, db) ∧
    updatePicture db id none image =
      (.frameworkError typeErrorUndefinedSplit, db) :=
  ⟨rfl, rfl⟩

/-- C6 (amended): an upload whose declared name has no extension inserts no
record in either create handler and leaves the state unchanged; createCategory
surfaces the `Unknown file type!` throw through the Express error handler (a
500), but createPicture turns it into an unhandled promise rejection: no
response is ever sent, so the failure is not reported to the caller. -/
theorem noExtension_no_insert (db : DB) (title m : String) (categoryId : Nat)
    (img : Upload) (now newId : Nat) (saveOk : Bool) (c : Category)
    (hext : getExtension img.originalname = .error "Unknown file type!")
    (hm : m ≠ "")
    (hc : db.categories.find? (fun d => d.oid == categoryId) = some c) :
    createCategory db title img now newId saveOk =
      (.frameworkError "Unknown file type!", db) ∧
    createPicture db categoryId (some m) (some img) now newId saveOk =
      (.noResponse "Unknown file type!", db) := by
  constructor
  · simp [createCategory, hext]
  · simp [createPicture, hc, hext, hm]

/-- A store holding one category with id 1 and its blob. -/
def dbWithCategory1 : DB :=
  { categories := [{ oid := 1, title := "animals", imageUrl := "/uploads/c.png", dateAdded := 0 }],
    pictures := [],
    blobs := ["/uploads/c.png"] }

/-- An upload whose declared original name carries no extension. -/
def extensionlessUpload : Upload :=
  { filename := "stage77", originalname := "noextension" }

/-- C6 counterexample: with an existing category and a valid matches field but
an extensionless declared filename, POST `/pictures` never sends a response:
the UnknownFileType failure is not reported to the caller, contradicting the
claim as stated (while indeed no record is inserted). -/
theorem noExtension_createPicture_unreported :
    (createPicture dbWithCategory1 1 (some "cat") (some extensionlessUpload)
        3 9 true).1.isReportedToCaller = false ∧
    (createPicture dbWithCategory1 1 (some "cat") (some extensionlessUpload)
        3 9 true).2 = dbWithCategory1 :=
  ⟨rfl, rfl⟩

/-- C6 witness: the amended statement at the concrete store. -/
theorem noExtension_no_insert_witness :
    createCategory dbWithCategory1 "title" extensionlessUpload 3 9 true =
      (.frameworkError "Unknown file type!", dbWithCategory1) ∧
    createPicture dbWithCategory1 1 (some "cat") (some extensionlessUpload) 3 9 true =
      (.noResponse "Unknown file type!", dbWithCategory1) :=
  noExtension_no_insert dbWithCategory1 "title" "cat" 1 extensionlessUpload 3 9 true
    { oid := 1, title := "animals", imageUrl := "/uploads/c.png", dateAdded := 0 }
    rfl (by decide) rfl

/-- C8: updating an existing picture without a new image and with matchesText
`DOG, Pet ,cat` stores exactly `["dog", "pet", "cat"]`: the record with this
id is point-updated with the trimmed, lowercased tags and every other record
is kept verbatim; and parseMatches keeps empty entries, so a trailing comma
yields an empty-string tag. -/
theorem updatePicture_trim_lower (db : DB) (id : Nat)
    (hp : (db.pictures.find? (fun p => p.oid == id)).isSome) :
    (updatePicture db id (some "DOG, Pet ,cat") none).2.pictures =
      db.pictures.map (fun q =>
        if q.oid == id then { q with matchList := ["dog", "pet", "cat"] } else q) ∧
    parseMatches "DOG, Pet ,cat" = ["dog", "pet", "cat"] ∧
    parseMatches "dog," = ["dog", ""] := by
  refine ⟨?_, by decide, by decide⟩
  obtain ⟨p, hfind⟩ := Option.isSome_iff_exists.mp hp
  have hparse : parseMatches "DOG, Pet ,cat" = ["dog", "pet", "cat"] := by decide
  have hne : (("DOG, Pet ,cat" : String) == "") = false := by decide
  simp [updatePicture, hfind, hne, hparse]

/-- A store holding one picture with id 7 in category 1. -/
def dbWithPicture7 : DB :=
  { categories := [],
    pictures := [{ oid := 7, categoryId := 1, matchList := ["old"],
                   imageUrl := "/uploads/p.png", dateAdded := 0 }],
    blobs := ["/uploads/p.png"] }

/-- C8 witness: the update at the concrete store. -/
theorem updatePicture_trim_lower_witness :
    (updatePicture dbWithPicture7 7 (some "DOG, Pet ,cat") none).2.pictures =
      dbWithPicture7.pictures.map (fun q =>
        if q.oid == 7 then { q with matchList := ["dog", "pet", "cat"] } else q) ∧
    parseMatches "DOG, Pet ,cat" = ["dog", "pet", "cat"] ∧
    parseMatches "dog," = ["dog", ""] :=
  updatePicture_trim_lower dbWithPicture7 7 (by decide)

/-- C10: both create handlers send their success response without awaiting the
record insert: once the blob is finalized, the outcome towards the caller is
identical whether the insert later succeeds or fails, so an insert failure is
never surfaced as a failure of the create operation — in the failing
execution the caller holds a success response while the store has the blob
but no record. -/
theorem create_response_ignores_save (db : DB) (title m : String)
    (categoryId : Nat) (imgC imgP : Upload) (now newId : Nat)
    (extC extP : String) (c : Category)
    (hextC : getExtension imgC.originalname = .ok extC)
    (hextP : getExtension imgP.originalname = .ok extP)
    (hm : m ≠ "")
    (hc : db.categories.find? (fun d => d.oid == categoryId) = some c) :
    (createCategory db title imgC now newId false).1 =
      (createCategory db title imgC now newId true).1 ∧
    (createCategory db title imgC now newId false).1 =
      .sentCategory { oid := newId, title := title,
                      imageUrl := targetUrl imgC extC, dateAdded := now } ∧
    (createCategory db title imgC now newId false).2 =
      { db with blobs := targetUrl imgC extC :: db.blobs } ∧
    (createPicture db categoryId (some m) (some imgP) now newId false).1 =
      (createPicture db categoryId (some m) (some imgP) now newId true).1 ∧
    (createPicture db categoryId (some m) (some imgP) now newId false).1 =
      .sentPicture { oid := newId, categoryId := categoryId,
                     matchList := parseMatches m, imageUrl := targetUrl imgP extP,
                     dateAdded := now } ∧
    (createPicture db categoryId (some m) (some imgP) now newId false).2 =
      { db with blobs := targetUrl imgP extP :: db.blobs } := by
  simp [createCategory, createPicture, hextC, hextP, hc, hm]

/-- An upload declared as `a.PNG`. -/
def uploadPng : Upload := { filename := "s1", originalname := "a.PNG" }

/-- An upload declared as `b.jpg`. -/
def uploadJpg : Upload := { filename := "s2", originalname := "b.jpg" }

/-- C10 witness: the non-awaited saves at a concrete store and uploads. -/
theorem create_response_ignores_save_witness :
    (createCategory dbWithCategory1 "t" uploadPng 4 9 false).1 =
      (createCategory dbWithCategory1 "t" uploadPng 4 9 true).1 ∧
    (createCategory dbWithCategory1 "t" uploadPng 4 9 false).1 =
      .sentCategory { oid := 9, title := "t",
                      imageUrl := targetUrl uploadPng "PNG", dateAdded := 4 } ∧
    (createCategory dbWithCategory1 "t" uploadPng 4 9 false).2 =
      { dbWithCategory1 with blobs := targetUrl uploadPng "PNG" :: dbWithCategory1.blobs } ∧
    (createPicture dbWithCategory1 1 (some "cat") (some uploadJpg) 4 9 false).1 =
      (createPicture dbWithCategory1 1 (some "cat") (some uploadJpg) 4 9 true).1 ∧
    (createPicture dbWithCategory1 1 (some "cat") (some uploadJpg) 4 9 false).1 =
      .sentPicture { oid := 9, categoryId := 1, matchList := parseMatches "cat",
                     imageUrl := targetUrl uploadJpg "jpg", dateAdded := 4 } ∧
    (createPicture dbWithCategory1 1 (some "cat") (some uploadJpg) 4 9 false).2 =
      { dbWithCategory1 with blobs := targetUrl uploadJpg "jpg" :: dbWithCategory1.blobs } :=
  create_response_ignores_save dbWithCategory1 "t" "cat" 1 uploadPng uploadJpg 4 9 "PNG" "jpg"
    { oid := 1, title := "animals", imageUrl := "/uploads/c.png", dateAdded := 0 }
    rfl rfl (by decide) rfl

/-- C4 (amended): when the matching population has fewer records than `limit`,
the route does not fail and returns only matching records, at most `limit` of
them — but not necessarily the entire population: records inside the recency
window that the fresh `$sample` does not draw are returned by neither query
(the backfill query skips the whole window), see the counterexample. -/
theorem sampleBatch_small_population (db : DB) (cid : Nat) (limit : Int)
    (r : SampleRandom) (hb : validBucketSize limit r.latestBucketSize)
    (hpop : ((matchingPictures db cid).length : Int) < limit) :
    ∃ l, sampleBatch db cid limit r = .ok l ∧
      (∀ p ∈ l, p ∈ matchingPictures db cid) ∧ l.length ≤ limit.toNat := by
  obtain ⟨hb1, hb2⟩ := hb
  have hlim : 0 < limit := lt_of_le_of_lt (Int.natCast_nonneg _) hpop
  have hlimtn : 1 ≤ limit.toNat := by omega
  have hbucket_le : r.latestBucketSize ≤ limit.toNat := by
    have hdiv : limit.toNat / 2 ≤ limit.toNat := Nat.div_le_self _ _
    have hmax : max 1 (limit.toNat / 2) ≤ limit.toNat := max_le hlimtn hdiv
    exact le_trans hb2 hmax
  set sorted := sortByDateDesc (matchingPictures db cid) with hsorted
  obtain ⟨latest, h1⟩ :=
    mongoSample_ok r.freshOracle (sorted.take latestItemsLimit)
      (Int.natCast_nonneg r.latestBucketSize)
  have hlen1 : latest.length ≤ r.latestBucketSize := by
    have := mongoSample_length h1
    simp only [Int.toNat_natCast] at this
    omega
  have hrest_nonneg : (0 : Int) ≤ limit - latest.length := by omega
  obtain ⟨sampled, h2⟩ :=
    mongoSample_ok r.restOracle (sorted.drop latestItemsLimit) hrest_nonneg
  have hlen2 : sampled.length ≤ (limit - latest.length).toNat := by
    have := mongoSample_length h2
    omega
  refine ⟨latest ++ sampled.filter (fun p => !((latest.map (fun q => q.oid)).contains p.oid)),
    ?_, ?_, ?_⟩
  · simp only [sampleBatch, jsSetFromArray, ← hsorted, h1, h2]
  · intro p hp
    rcases List.mem_append.mp hp with hmem | hmem
    · have := mongoSample_mem h1 p hmem
      exact mem_sortByDateDesc.mp (List.take_subset _ _ this)
    · have := mongoSample_mem h2 p (List.mem_of_mem_filter hmem)
      exact mem_sortByDateDesc.mp (List.drop_subset _ _ this)
  · have hfle : (sampled.filter
        (fun p => !((latest.map (fun q => q.oid)).contains p.oid))).length ≤ sampled.length :=
      List.length_filter_le _ _
    rw [List.length_append]
    omega

/-- The newer of two matching pictures. -/
def picNewer : Picture :=
  { oid := 21, categoryId := 1, matchList := ["cat"],
    imageUrl := "/uploads/a1.png", dateAdded := 2 }

/-- The older of two matching pictures. -/
def picOlder : Picture :=
  { oid := 22, categoryId := 1, matchList := ["cat"],
    imageUrl := "/uploads/a2.png", dateAdded := 1 }

/-- A store with exactly two pictures, both in category 1. -/
def dbTwoPictures : DB :=
  { categories := [], pictures := [picOlder, picNewer],
    blobs := ["/uploads/a1.png", "/uploads/a2.png"] }

/-- C4 counterexample: a population of 2 is smaller than limit 10, and a fresh
draw of size 1 (admissible: the spec range is [1, 5]) that picks the newest
record makes the route return just that one record; `picOlder` matches the
filter but is not in the result, so the entire matching population is not
returned. -/
theorem sampleBatch_small_population_counterexample :
    validBucketSize 10 1 ∧
    sampleBatch dbTwoPictures 1 10
        { latestBucketSize := 1, freshOracle := [0], restOracle := [] } = .ok [picNewer] ∧
    picOlder ∈ matchingPictures dbTwoPictures 1 ∧
    picOlder ∉ [picNewer] :=
  ⟨by decide, rfl, by decide, by decide⟩

/-- C4 witness: the amended statement at the two-picture store. -/
theorem sampleBatch_small_population_witness :
    ∃ l, sampleBatch dbTwoPictures 1 10
        { latestBucketSize := 1, freshOracle := [0], restOracle := [] } = .ok l ∧
      (∀ p ∈ l, p ∈ matchingPictures dbTwoPictures 1) ∧ l.length ≤ (10 : Int).toNat :=
  sampleBatch_small_population dbTwoPictures 1 10
    { latestBucketSize := 1, freshOracle := [0], restOracle := [] }
    ⟨by decide, by decide⟩ (by decide)

/-- C7 (amended): with `limit ≤ 0` the route returns the empty set only in the
single case `limit = 0` with no matching records. In every other case —
`limit < 0`, or `limit = 0` with a nonempty matching population — the
backfill sample size `limit - |freshSet|` is negative (the fresh draw is
forced to size minimum 1, so a fresh record is taken whenever any record
matches) and the aggregation fails; the route reports the failure as a 500
error instead of returning an empty set. -/
theorem sampleBatch_nonpositive_limit (db : DB) (cid : Nat) (limit : Int)
    (r : SampleRandom) (hb : validBucketSize limit r.latestBucketSize)
    (hl : limit ≤ 0) :
    (limit = 0 → matchingPictures db cid = [] → sampleBatch db cid limit r = .ok []) ∧
    ((limit < 0 ∨ matchingPictures db cid ≠ []) →
      sampleBatch db cid limit r =
        .error "size argument to sample must not be negative") := by
  have htn : limit.toNat = 0 := Int.toNat_of_nonpos hl
  have hb1 : r.latestBucketSize = 1 := by
    obtain ⟨h1, h2⟩ := hb
    rw [htn] at h2
    omega
  constructor
  · intro h0 hempty
    subst h0
    simp only [sampleBatch, hempty, hb1, jsSetFromArray, latestItemsLimit]
    norm_num [sortByDateDesc, mongoSample]
  · intro hcase
    set sorted := sortByDateDesc (matchingPictures db cid) with hsorted
    obtain ⟨latest, h1⟩ :=
      mongoSample_ok r.freshOracle (sorted.take latestItemsLimit)
        (Int.natCast_nonneg r.latestBucketSize)
    have hlen1 : latest.length = min (sorted.take latestItemsLimit).length 1 := by
      have := mongoSample_length h1
      rw [hb1] at this
      simpa using this
    have hneg : limit - (latest.length : Int) < 0 := by
      rcases hcase with hneg0 | hnonempty
      · omega
      · have hpos : 0 < (matchingPictures db cid).length :=
          List.length_pos.mpr hnonempty
        have hsortlen : sorted.length = (matchingPictures db cid).length := by
          rw [hsorted]
          exact length_sortByDateDesc _
        have htake : (sorted.take latestItemsLimit).length =
            min latestItemsLimit sorted.length := List.length_take _ _
        have hone : latest.length = 1 := by
          rw [hlen1, htake]
          simp only [latestItemsLimit]
          omega
        omega
    simp only [sampleBatch, ← hsorted, h1, jsSetFromArray]
    rw [mongoSample_neg _ _ hneg]

/-- A single matching picture. -/
def picSolo : Picture :=
  { oid := 31, categoryId := 1, matchList := ["cat"],
    imageUrl := "/uploads/s.png", dateAdded := 5 }

/-- A store with exactly one picture, in category 1. -/
def dbOnePicture : DB :=
  { categories := [], pictures := [picSolo], blobs := ["/uploads/s.png"] }

/-- An empty store. -/
def dbEmpty : DB := { categories := [], pictures := [], blobs := [] }

/-- C7 counterexample: with limit 0 and one matching record, the fresh draw
(forced to size 1) takes that record, the backfill size becomes 0 - 1 = -1,
and the aggregation rejects: the route fails with an error instead of
returning the empty set. -/
theorem sampleBatch_zero_limit_counterexample :
    validBucketSize 0 1 ∧
    sampleBatch dbOnePicture 1 0
        { latestBucketSize := 1, freshOracle := [], restOracle := [] } =
      .error "size argument to sample must not be negative" :=
  ⟨by decide, rfl⟩

/-- C7 witness: both branches of the amended statement, at concrete stores. -/
theorem sampleBatch_nonpositive_limit_witness :
    sampleBatch dbEmpty 1 0
        { latestBucketSize := 1, freshOracle := [], restOracle := [] } = .ok [] ∧
    sampleBatch dbOnePicture 1 (-3)
        { latestBucketSize := 1, freshOracle := [], restOracle := [] } =
      .error "size argument to sample must not be negative" :=
  ⟨(sampleBatch_nonpositive_limit dbEmpty 1 0
      { latestBucketSize := 1, freshOracle := [], restOracle := [] }
      (by decide) (by decide)).1 rfl rfl,
   (sampleBatch_nonpositive_limit dbOnePicture 1 (-3)
      { latestBucketSize := 1, freshOracle := [], restOracle := [] }
      (by decide) (by decide)).2 (Or.inl (by decide))⟩

/-- The newest of three matching pictures. -/
def picFresh : Picture :=
  { oid := 41, categoryId := 1, matchList := ["cat"],
    imageUrl := "/uploads/f1.png", dateAdded := 30 }

/-- The middle of three matching pictures. -/
def picMiddle : Picture :=
  { oid := 42, categoryId := 1, matchList := ["cat"],
    imageUrl := "/uploads/f2.png", dateAdded := 20 }

/-- The oldest of three matching pictures. -/
def picOldest : Picture :=
  { oid := 43, categoryId := 1, matchList := ["cat"],
    imageUrl := "/uploads/f3.png", dateAdded := 10 }

/-- A store with three pictures in category 1. -/
def dbThreePictures : DB :=
  { categories := [], pictures := [picOldest, picFresh, picMiddle],
    blobs := ["/uploads/f1.png", "/uploads/f2.png", "/uploads/f3.png"] }

/-- C2 (the code evaluated at the failing input): three matching pictures,
limit 4, an admissible fresh bucket size of 2 (the spec range is [1, 2]), and
a fresh `$sample` that emits the newest document twice — which the MongoDB
documentation allows. The dedup step `Array.from(new Set(latest))` compares
the freshly allocated result objects by reference and keeps both copies, and
the route returns a batch carrying the same record identity twice. -/
theorem sampleBatch_duplicate_identity :
    validBucketSize 4 2 ∧
    jsSetFromArray [picFresh, picFresh] = [picFresh, picFresh] ∧
    sampleBatch dbThreePictures 1 4
        { latestBucketSize := 2, freshOracle := [0, 0], restOracle := [] } =
      .ok [picFresh, picFresh] ∧
    ¬ (([picFresh, picFresh]).map (fun p => p.oid)).Nodup :=
  ⟨by decide, rfl, rfl, by decide⟩

/-- The category that `deleteCategory` cascades over in the witness store. -/
def catAnimals : Category :=
  { oid := 1, title := "animals", imageUrl := "/uploads/cat1.png", dateAdded := 0 }

/-- A picture under category 1 in the witness store. -/
def picUnderAnimals : Picture :=
  { oid := 51, categoryId := 1, matchList := ["cat"],
    imageUrl := "/uploads/q1.png", dateAdded := 1 }

/-- A store with category 1, two pictures under it and one unrelated picture. -/
def dbCascade : DB :=
  { categories := [catAnimals],
    pictures := [picUnderAnimals,
                 { oid := 52, categoryId := 2, matchList := ["dog"],
                   imageUrl := "/uploads/q2.png", dateAdded := 2 },
                 { oid := 53, categoryId := 1, matchList := ["cat"],
                   imageUrl := "/uploads/q3.png", dateAdded := 3 }],
    blobs := ["/uploads/cat1.png", "/uploads/q1.png", "/uploads/q2.png",
              "/uploads/q3.png"] }

/-- C1 witness: at the concrete store, the cascade deletes the blob of a
picture under category 1 and the blob of the category itself. -/
theorem deleteCategory_cascade_witness :
    picUnderAnimals.imageUrl ∉ (deleteCategory dbCascade 1).2.blobs ∧
    catAnimals.imageUrl ∉ (deleteCategory dbCascade 1).2.blobs :=
  ⟨(deleteCategory_cascade dbCascade 1).2.2.1 picUnderAnimals (by decide) rfl,
   (deleteCategory_cascade dbCascade 1).2.2.2 catAnimals rfl⟩
